import Mathlib

/-!
Shallow embedding of the AnimeRig character-animation core
(`engine/src/renderer/CharacterRenderer_complex.cpp` and its header
`CharacterRenderer.h`), together with proofs settling the frozen claims
about the soft-body physics, constraint relaxation, expression blending
and blink timing.

Modelling conventions:
* C++ `float` scalars of the physics pipeline (positions, forces,
  delta-time) are idealised as real numbers, because constraint
  relaxation divides by a Euclidean length (`glm::length`, a square
  root).
* C++ `float` scalars of the expression/blink subsystem are idealised
  as rationals, so that concrete evaluations are decidable; no square
  root occurs there.
* The GPU handle fields (VAO/VBO/EBO/textureId) are carried as plain
  naturals; the out-of-scope skeleton/physics-context pointers of the
  `Character` struct are omitted (the modelled functions never touch
  them).
* `rand() % 3` is modelled by an arbitrary natural draw reduced mod 3.
-/

namespace AnimeRig

/-- Three-component float vector (`glm::vec3`), idealised over the reals. -/
structure Vec3 where
  x : ℝ
  y : ℝ
  z : ℝ

namespace Vec3

@[ext] theorem ext3 {a b : Vec3} (hx : a.x = b.x) (hy : a.y = b.y) (hz : a.z = b.z) :
    a = b := by
  cases a; cases b; simp_all

instance : Add Vec3 := ⟨fun a b => ⟨a.x + b.x, a.y + b.y, a.z + b.z⟩⟩

instance : Sub Vec3 := ⟨fun a b => ⟨a.x - b.x, a.y - b.y, a.z - b.z⟩⟩

/-- Componentwise scaling by a scalar (`glm::vec3 * float`). -/
def scale (v : Vec3) (c : ℝ) : Vec3 := ⟨v.x * c, v.y * c, v.z * c⟩

/-- The zero vector (`glm::vec3(0.0f)`). -/
def zero : Vec3 := ⟨0, 0, 0⟩

@[simp] theorem add_def (a b : Vec3) : a + b = ⟨a.x + b.x, a.y + b.y, a.z + b.z⟩ := rfl

@[simp] theorem sub_def (a b : Vec3) : a - b = ⟨a.x - b.x, a.y - b.y, a.z - b.z⟩ := rfl

end Vec3

/-- Two-component float vector (`glm::vec2`). -/
structure Vec2 where
  x : ℝ
  y : ℝ

/-- Four-component float vector (`glm::vec4`). -/
structure Vec4 where
  x : ℝ
  y : ℝ
  z : ℝ
  w : ℝ

/-- `glm::length`: Euclidean norm, the square root of the dot product. -/
noncomputable def length3 (v : Vec3) : ℝ :=
  Real.sqrt (v.x * v.x + v.y * v.y + v.z * v.z)

/-- A mesh vertex (`struct Vertex`). -/
structure Vertex where
  position : Vec3
  normal : Vec3
  texCoords : Vec2
  boneIds : Vec4
  weights : Vec4

/-- A soft-body particle (`MeshRegion::PhysicsParticle`). -/
structure PhysicsParticle where
  position : Vec3
  oldPosition : Vec3
  acceleration : Vec3
  mass : ℝ
  pinned : Bool

/-- Placeholder particle used only to make guarded list accesses total;
the C++ accesses are guarded by the same bounds check, so this value is
never observed. -/
def pdefault : PhysicsParticle := ⟨Vec3.zero, Vec3.zero, Vec3.zero, 1, false⟩

instance : Inhabited PhysicsParticle := ⟨pdefault⟩

/-- A named mesh region (`struct MeshRegion`): vertex/index buffers, GPU
handles, and for simulated regions a particle list and a constraint list
of `std::pair<int,int>` particle indices. -/
structure MeshRegion where
  vertices : List Vertex
  indices : List ℕ
  VAO : ℕ
  VBO : ℕ
  EBO : ℕ
  textureId : ℕ
  particles : List PhysicsParticle
  constraints : List (ℤ × ℤ)

/-- Discrete emotion labels (`enum class EmotionType`). -/
inductive EmotionType where
  | NEUTRAL
  | HAPPY
  | SAD
  | SURPRISED
  | ANGRY
  | THINKING
  | EXCITED
deriving DecidableEq

/-- Continuous facial parameters (`struct FacialExpression`), idealised
over the rationals. -/
structure FacialExpression where
  eyeOpenness : ℚ
  mouthOpenness : ℚ
  smileIntensity : ℚ
  browRaise : ℚ
  primaryEmotion : EmotionType
  intensity : ℚ
deriving DecidableEq

/-- The C++ default member initialisers of `FacialExpression`. -/
def FacialExpression.init : FacialExpression :=
  ⟨1, 0, 0, 0, EmotionType.NEUTRAL, 1/2⟩

/-- Unit quaternion for hand orientation (`glm::quat`). -/
structure Quat where
  w : ℝ
  x : ℝ
  y : ℝ
  z : ℝ

/-- Per-hand finger pose (`struct FingerPose`). -/
structure FingerPose where
  fingerBends : List ℚ
  handPosition : Vec3
  handRotation : Quat

/-- The body-part regions of a character (`Character::BodyParts`). -/
structure BodyParts where
  head : MeshRegion
  hair : MeshRegion
  leftEye : MeshRegion
  rightEye : MeshRegion
  mouth : MeshRegion
  leftFingers : List MeshRegion
  rightFingers : List MeshRegion
  clothing : MeshRegion
  skirt : MeshRegion

/-- The single active character (`CharacterRenderer::Character`), minus
the out-of-scope skeleton/physics-context pointers. -/
structure Character where
  vertices : List Vertex
  indices : List ℕ
  parts : BodyParts
  currentExpression : FacialExpression
  leftHandPose : FingerPose
  rightHandPose : FingerPose
  breathingOffset : Vec3
  blinkTimer : ℚ
  hairStiffness : ℝ
  clothStiffness : ℝ
  windForce : Vec3

/-- The constant gravitational acceleration `glm::vec3(0.0f, -9.81f, 0.0f)`
used in `UpdateHairPhysics`. -/
noncomputable def gravity : Vec3 := ⟨0, -981/100, 0⟩

/-- One Verlet step of the loop body of `CharacterRenderer::UpdateHairPhysics`
(lines 209-221): pinned particles are skipped; otherwise
`velocity = position - oldPosition`, `acceleration = gravity + windForce`,
`position += velocity * 0.99f + acceleration * dt * dt`, and `oldPosition`
receives the pre-step position. -/
noncomputable def integrateParticle (wind : Vec3) (dt : ℝ) (p : PhysicsParticle) : PhysicsParticle :=
  if p.pinned then p
  else
    let velocity := p.position - p.oldPosition
    let accel := gravity + wind
    { p with
      acceleration := accel
      position := p.position + velocity.scale (99/100) + accel.scale (dt * dt)
      oldPosition := p.position }

/-- One iteration of the constraint loop of
`CharacterRenderer::SatisfyConstraints` (lines 368-388): skip the
constraint when either `int` index is out of range for the particle
count (the C++ comparison against `size()` converts a negative index to
a huge unsigned value, so negatives are also skipped); otherwise compute
`delta`, its length, and — only when the distance is positive — move
each unpinned endpoint by half the correction toward the fixed rest
length `0.1f`. -/
noncomputable def applyConstraint (ps : List PhysicsParticle) (c : ℤ × ℤ) :
    List PhysicsParticle :=
  if c.1 < 0 ∨ (ps.length : ℤ) ≤ c.1 ∨ c.2 < 0 ∨ (ps.length : ℤ) ≤ c.2 then ps
  else
    let i := c.1.toNat
    let j := c.2.toNat
    let p1 := ps.getD i pdefault
    let p2 := ps.getD j pdefault
    let delta := p2.position - p1.position
    let distance := length3 delta
    let restLength : ℝ := 1/10
    if 0 < distance then
      let difference := (restLength - distance) / distance
      let translate := (delta.scale difference).scale (1/2)
      let q1 := if p1.pinned then p1 else { p1 with position := p1.position - translate }
      let q2 := if p2.pinned then p2 else { p2 with position := p2.position + translate }
      (ps.set i q1).set j q2
    else ps

/-- `CharacterRenderer::SatisfyConstraints`: one relaxation pass over the
region's constraint list, in list order. -/
noncomputable def satisfyConstraints (region : MeshRegion) : MeshRegion :=
  { region with particles := region.constraints.foldl applyConstraint region.particles }

/-- The index-parallel write-back loop of
`CharacterRenderer::ApplyPhysicsToMesh`: vertex `i` receives particle
`i`'s position while both lists have an element at `i`; excess vertices
(or particles) are left untouched. -/
def writeBack : List PhysicsParticle → List Vertex → List Vertex
  | _, [] => []
  | [], vs => vs
  | p :: ps, v :: vs => { v with position := p.position } :: writeBack ps vs

/-- `CharacterRenderer::ApplyPhysicsToMesh`. -/
def applyPhysicsToMesh (region : MeshRegion) : MeshRegion :=
  { region with vertices := writeBack region.particles region.vertices }

/-- `CharacterRenderer::UpdateHairPhysics`: early return when the hair
region's particle list is empty; otherwise Verlet-integrate every
particle, run one constraint-relaxation pass, and write particle
positions back to the hair vertices. -/
noncomputable def updateHairPhysics (ch : Character) (dt : ℝ) : Character :=
  if ch.parts.hair.particles.isEmpty then ch
  else
    let hair0 := ch.parts.hair
    let hair1 := { hair0 with
      particles := hair0.particles.map (integrateParticle ch.windForce dt) }
    let hair2 := satisfyConstraints hair1
    let hair3 := applyPhysicsToMesh hair2
    { ch with parts := { ch.parts with hair := hair3 } }

/-- `CharacterRenderer::UpdateClothPhysics`: early return when the skirt
region's particle list is empty; otherwise it delegates to
`UpdateHairPhysics` ("Simplified for now"). -/
noncomputable def updateClothPhysics (ch : Character) (dt : ℝ) : Character :=
  if ch.parts.skirt.particles.isEmpty then ch
  else updateHairPhysics ch dt

/-- `glm::clamp(x, lo, hi) = min(max(x, lo), hi)`. -/
def qclamp (x lo hi : ℚ) : ℚ := min (max x lo) hi

/-- `glm::mix(x, y, a) = x * (1 - a) + y * a`. -/
def mix (a b t : ℚ) : ℚ := a * (1 - t) + b * t

/-- The target expression computed by `CharacterRenderer::SetEmotion`
(lines 150-176): a copy of the current expression whose `primaryEmotion`
is the requested emotion, whose stored `intensity` is the clamped
intensity, and whose facial parameters are set by the emotion switch.
Note that the switch uses the raw `intensity` parameter, not the clamped
value. -/
def emotionTarget (cur : FacialExpression) (emotion : EmotionType) (intensity : ℚ) :
    FacialExpression :=
  let base := { cur with primaryEmotion := emotion, intensity := qclamp intensity 0 1 }
  match emotion with
  | EmotionType.HAPPY =>
      { base with
        smileIntensity := intensity
        eyeOpenness := 1 + intensity * (1/5) }
  | EmotionType.SAD =>
      { base with
        smileIntensity := -intensity * (1/2)
        eyeOpenness := 1 - intensity * (3/10)
        browRaise := -intensity * (2/5) }
  | EmotionType.SURPRISED =>
      { base with
        eyeOpenness := 1 + intensity * (1/2)
        browRaise := intensity * (3/5)
        mouthOpenness := intensity * (3/10) }
  | EmotionType.THINKING =>
      { base with
        eyeOpenness := 1 - intensity * (1/5)
        browRaise := intensity * (3/10) }
  | _ => base

/-- `CharacterRenderer::InterpolateExpression`: one `glm::mix` step of
each of the four facial parameters of the current expression toward the
target, with interpolation factor `deltaTime * speed` (`deltaTime` is
the renderer's frame delta-time member).  The current expression's
`primaryEmotion` and `intensity` fields are not written. -/
def interpolateExpression (cur target : FacialExpression) (dtm speed : ℚ) :
    FacialExpression :=
  let factor := dtm * speed
  { cur with
    eyeOpenness := mix cur.eyeOpenness target.eyeOpenness factor
    mouthOpenness := mix cur.mouthOpenness target.mouthOpenness factor
    smileIntensity := mix cur.smileIntensity target.smileIntensity factor
    browRaise := mix cur.browRaise target.browRaise factor }

/-- `CharacterRenderer::AnimateFacialExpression`: interpolates toward the
given expression with speed `2.0f`. -/
def animateFacialExpression (ch : Character) (dtm : ℚ)
    (expression : FacialExpression) : Character :=
  { ch with currentExpression :=
      interpolateExpression ch.currentExpression expression dtm 2 }

/-- `CharacterRenderer::SetEmotion`: builds the target expression from
the current one and the emotion switch, then hands it to
`AnimateFacialExpression`. -/
def setEmotion (ch : Character) (dtm : ℚ) (emotion : EmotionType) (intensity : ℚ) :
    Character :=
  animateFacialExpression ch dtm (emotionTarget ch.currentExpression emotion intensity)

/-- `CharacterRenderer::TriggerBlink`: forces `eyeOpenness` to `0.1f`. -/
def triggerBlink (ch : Character) : Character :=
  { ch with currentExpression := { ch.currentExpression with eyeOpenness := 1/10 } }

/-- The blink-timer fragment of `CharacterRenderer::UpdateIdleAnimations`
(lines 188-192): the timer accumulates the frame delta-time and, when it
exceeds `3.0f + (rand() % 3)`, a blink fires and the timer resets to
zero.  Returns the new timer value and whether a blink fired. -/
def blinkCheck (timer dt : ℚ) (draw : ℕ) : ℚ × Bool :=
  let t := timer + dt
  if 3 + ((draw % 3 : ℕ) : ℚ) < t then (0, true) else (t, false)

/-- `CharacterRenderer::UpdateIdleAnimations`: breathing offset from a
sine of the wall-clock time (frequency `0.25f`, amplitude `0.02f`),
followed by the blink-timer check, which on firing calls `TriggerBlink`
and zeroes the timer. -/
noncomputable def updateIdleAnimations (ch : Character) (time : ℝ) (dtm : ℚ)
    (draw : ℕ) : Character :=
  let ch1 := { ch with breathingOffset :=
    { ch.breathingOffset with y := Real.sin (time * (1/4) * 2 * Real.pi) * (1/50) } }
  let t := ch1.blinkTimer + dtm
  if 3 + ((draw % 3 : ℕ) : ℚ) < t then
    { triggerBlink ch1 with blinkTimer := 0 }
  else
    { ch1 with blinkTimer := t }

/-- Accumulated blink-timer value at the first blink over a run of
frames, each frame contributing a delta-time and a fresh random draw;
`none` when no blink fires in the run.  This iterates `blinkCheck` from
the given starting timer with no external reset. -/
def firstFireTime (timer : ℚ) : List (ℚ × ℕ) → Option ℚ
  | [] => none
  | f :: rest =>
      let t := timer + f.1
      if 3 + ((f.2 % 3 : ℕ) : ℚ) < t then some t else firstFireTime t rest

/-- One facial parameter moved from `c` toward the target `t` without
overshoot: the new value `n` stays between `c` and `t`, and is strictly
closer to `t` unless the parameter was already at the target. -/
def movesToward (c t n : ℚ) : Prop :=
  min c t ≤ n ∧ n ≤ max c t ∧ (c ≠ t → |n - t| < |c - t|)

/-- An empty mesh region, for concrete test characters. -/
def emptyRegion : MeshRegion := ⟨[], [], 0, 0, 0, 0, [], []⟩

/-- A resting finger pose, for concrete test characters. -/
def restPose : FingerPose := ⟨[0, 0, 0, 0, 0], Vec3.zero, ⟨1, 0, 0, 0⟩⟩

/-- A concrete character with all regions empty, used as witness input. -/
def testCharacter : Character :=
  { vertices := []
    indices := []
    parts := ⟨emptyRegion, emptyRegion, emptyRegion, emptyRegion, emptyRegion,
              [], [], emptyRegion, emptyRegion⟩
    currentExpression := FacialExpression.init
    leftHandPose := restPose
    rightHandPose := restPose
    breathingOffset := Vec3.zero
    blinkTimer := 0
    hairStiffness := 1
    clothStiffness := 1
    windForce := Vec3.zero }

/-- A pinned particle at the origin, used as witness input. -/
def pinnedP : PhysicsParticle := { pdefault with pinned := true }

/-- A concrete character whose hair region holds one pinned particle. -/
def hairChar : Character :=
  { testCharacter with parts :=
      { testCharacter.parts with hair := { emptyRegion with particles := [pinnedP] } } }

/-- A concrete character whose hair region holds one unpinned particle. -/
def hairChar2 : Character :=
  { testCharacter with parts :=
      { testCharacter.parts with hair := { emptyRegion with particles := [pdefault] } } }

/-- A concrete character whose skirt region holds one particle. -/
def skirtChar : Character :=
  { testCharacter with parts :=
      { testCharacter.parts with skirt := { emptyRegion with particles := [pdefault] } } }

/-- An unpinned particle at `(0.2, 0, 0)`, used as witness input. -/
noncomputable def bobP : PhysicsParticle :=
  { pdefault with position := ⟨1/5, 0, 0⟩, oldPosition := ⟨1/5, 0, 0⟩ }

/-- A two-particle region — pinned anchor at the origin, free particle
at distance `0.2` — with a single distance constraint between them. -/
noncomputable def twoRegion : MeshRegion :=
  { emptyRegion with particles := [pinnedP, bobP], constraints := [(0, 1)] }

/-! ### Expression and blink theorems -/

/-- Helper: `qclamp` is the identity on `[0, 1]`. -/
theorem qclamp_of_mem (i : ℚ) (h0 : 0 ≤ i) (h1 : i ≤ 1) : qclamp i 0 1 = i := by
  unfold qclamp
  rw [max_eq_left h0, min_eq_left h1]

/-- Helper: every branch of the emotion switch keeps the clamped stored
intensity. -/
theorem emotionTarget_intensity (cur : FacialExpression) (e : EmotionType) (i : ℚ) :
    (emotionTarget cur e i).intensity = qclamp i 0 1 := by
  cases e <;> rfl

/-- C5: the emotion-to-target table of `SetEmotion` is exact:
`SetEmotion(HAPPY, 0.5)` builds a target expression with
`smileIntensity = 0.5` and `eyeOpenness = 1.1`, and
`SetEmotion(SURPRISED, 1.0)` builds a target with `eyeOpenness = 1.5`,
`browRaise = 0.6` and `mouthOpenness = 0.3`, whatever the current
expression is. -/
theorem c5_emotion_table (cur : FacialExpression) :
    (emotionTarget cur EmotionType.HAPPY (1/2)).smileIntensity = 1/2 ∧
    (emotionTarget cur EmotionType.HAPPY (1/2)).eyeOpenness = 11/10 ∧
    (emotionTarget cur EmotionType.SURPRISED 1).eyeOpenness = 3/2 ∧
    (emotionTarget cur EmotionType.SURPRISED 1).browRaise = 3/5 ∧
    (emotionTarget cur EmotionType.SURPRISED 1).mouthOpenness = 3/10 := by
  refine ⟨?_, ?_, ?_, ?_, ?_⟩ <;> simp [emotionTarget] <;> norm_num

/-- C3 counterexample: `SetEmotion(HAPPY, 2)` and
`SetEmotion(HAPPY, clamp 2 [0,1]) = SetEmotion(HAPPY, 1)` do not produce
the same resulting expression state: with frame delta-time 1 the
resulting `smileIntensity` is `4` for the raw intensity but `2` for the
clamped one, because the emotion switch uses the unclamped intensity. -/
theorem c3_counterexample :
    (setEmotion testCharacter 1 EmotionType.HAPPY 2).currentExpression.smileIntensity
      = 4 ∧
    (setEmotion testCharacter 1 EmotionType.HAPPY
        (qclamp 2 0 1)).currentExpression.smileIntensity = 2 ∧
    (setEmotion testCharacter 1 EmotionType.HAPPY 2).currentExpression.smileIntensity
      ≠ (setEmotion testCharacter 1 EmotionType.HAPPY
          (qclamp 2 0 1)).currentExpression.smileIntensity := by
  refine ⟨?_, ?_, ?_⟩ <;>
    norm_num [setEmotion, animateFacialExpression, interpolateExpression,
      emotionTarget, mix, qclamp, testCharacter, FacialExpression.init]

/-- C3 amended: only the stored `intensity` field of the computed target
is clamped to `[0,1]`; the facial parameters are computed from the raw
intensity, so `SetEmotion(e, i)` agrees with `SetEmotion(e, clamp(i))`
exactly when `i` already lies in `[0,1]`. -/
theorem c3_clamp_only_in_range (ch : Character) (dtm : ℚ) (e : EmotionType) (i : ℚ)
    (h0 : 0 ≤ i) (h1 : i ≤ 1) :
    setEmotion ch dtm e i = setEmotion ch dtm e (qclamp i 0 1) ∧
    (emotionTarget ch.currentExpression e i).intensity = qclamp i 0 1 := by
  refine ⟨?_, emotionTarget_intensity _ _ _⟩
  rw [qclamp_of_mem i h0 h1]

/-- C3 witness: the amended statement evaluated at intensity `1/2`. -/
theorem c3_witness :
    (0 : ℚ) ≤ 1/2 ∧ (1/2 : ℚ) ≤ 1 ∧
    setEmotion testCharacter 1 EmotionType.HAPPY (1/2)
      = setEmotion testCharacter 1 EmotionType.HAPPY (qclamp (1/2) 0 1) :=
  ⟨by norm_num, by norm_num,
    (c3_clamp_only_in_range testCharacter 1 EmotionType.HAPPY (1/2)
      (by norm_num) (by norm_num)).1⟩

/-- Helper: one `glm::mix` step with factor in `(0, 1]` moves a value
toward the target without overshoot. -/
theorem mix_movesToward (c t f : ℚ) (h0 : 0 < f) (h1 : f ≤ 1) :
    movesToward c t (mix c t f) := by
  unfold movesToward mix
  refine ⟨?_, ?_, ?_⟩
  · rcases le_total c t with h | h
    · rw [min_eq_left h]; nlinarith
    · rw [min_eq_right h]; nlinarith
  · rcases le_total c t with h | h
    · rw [max_eq_right h]; nlinarith
    · rw [max_eq_left h]; nlinarith
  · intro hne
    have hrw : c * (1 - f) + t * f - t = (c - t) * (1 - f) := by ring
    rw [hrw, abs_mul, abs_of_nonneg (by linarith : (0:ℚ) ≤ 1 - f)]
    have hpos : 0 < |c - t| := abs_pos.mpr (sub_ne_zero.mpr hne)
    nlinarith

/-- C4 counterexample: with frame delta-time 1 (factor
`deltaTime * speed = 2`), the interpolation step overshoots: starting
from the default expression (`eyeOpenness = 1`) toward the SURPRISED
target (`eyeOpenness = 1.5`), the new value is `2`, strictly beyond the
target, so the step does not move the parameter toward the target. -/
theorem c4_counterexample :
    (interpolateExpression FacialExpression.init
        (emotionTarget FacialExpression.init EmotionType.SURPRISED 1) 1 2).eyeOpenness
      = 2 ∧
    (emotionTarget FacialExpression.init EmotionType.SURPRISED 1).eyeOpenness = 3/2 ∧
    FacialExpression.init.eyeOpenness = 1 ∧
    ¬ movesToward FacialExpression.init.eyeOpenness
        (emotionTarget FacialExpression.init EmotionType.SURPRISED 1).eyeOpenness
        (interpolateExpression FacialExpression.init
          (emotionTarget FacialExpression.init EmotionType.SURPRISED 1)
          1 2).eyeOpenness := by
  refine ⟨?_, ?_, ?_, ?_⟩
  · norm_num [interpolateExpression, emotionTarget, mix, FacialExpression.init]
  · norm_num [emotionTarget, FacialExpression.init]
  · norm_num [FacialExpression.init]
  · intro h
    have h2 := h.2.1
    norm_num [interpolateExpression, emotionTarget, mix,
      FacialExpression.init] at h2

/-- C4 amended: an interpolation step (`InterpolateExpression`, which
the code runs once per requested expression change, with factor
`deltaTime * speed`) moves each of the four facial parameters toward its
target without overshoot — strictly closer unless already at the
target — provided the factor lies in `(0, 1]`; for factors above 1
(frame delta-time above 0.5 s at speed 2) the step can overshoot. -/
theorem c4_no_overshoot (cur target : FacialExpression) (dtm speed : ℚ)
    (h0 : 0 < dtm * speed) (h1 : dtm * speed ≤ 1) :
    movesToward cur.eyeOpenness target.eyeOpenness
      (interpolateExpression cur target dtm speed).eyeOpenness ∧
    movesToward cur.mouthOpenness target.mouthOpenness
      (interpolateExpression cur target dtm speed).mouthOpenness ∧
    movesToward cur.smileIntensity target.smileIntensity
      (interpolateExpression cur target dtm speed).smileIntensity ∧
    movesToward cur.browRaise target.browRaise
      (interpolateExpression cur target dtm speed).browRaise :=
  ⟨mix_movesToward _ _ _ h0 h1, mix_movesToward _ _ _ h0 h1,
   mix_movesToward _ _ _ h0 h1, mix_movesToward _ _ _ h0 h1⟩

/-- C4 witness: the amended statement at delta-time `1/4`, speed `2`. -/
theorem c4_witness :
    (0 : ℚ) < (1/4) * 2 ∧ (1/4 : ℚ) * 2 ≤ 1 ∧
    movesToward FacialExpression.init.eyeOpenness
      (emotionTarget FacialExpression.init EmotionType.SURPRISED 1).eyeOpenness
      (interpolateExpression FacialExpression.init
        (emotionTarget FacialExpression.init EmotionType.SURPRISED 1)
        (1/4) 2).eyeOpenness :=
  ⟨by norm_num, by norm_num,
    (c4_no_overshoot FacialExpression.init
      (emotionTarget FacialExpression.init EmotionType.SURPRISED 1) (1/4) 2
      (by norm_num) (by norm_num)).1⟩

/-- Helper: the blink timer after `UpdateIdleAnimations` is exactly what
the blink-timer fragment computes. -/
theorem updateIdleAnimations_blinkTimer (ch : Character) (time : ℝ) (dtm : ℚ)
    (draw : ℕ) :
    (updateIdleAnimations ch time dtm draw).blinkTimer
      = (blinkCheck ch.blinkTimer dtm draw).1 := by
  by_cases hc : 3 + ((draw % 3 : ℕ) : ℚ) < ch.blinkTimer + dtm
  · simp [updateIdleAnimations, blinkCheck, triggerBlink, hc]
  · simp [updateIdleAnimations, blinkCheck, triggerBlink, hc]

/-- Helper: bounds for a run of blink checks, generalised over the
starting timer: if the timer starts in `[0, 5]` and every frame
delta-time lies in `[0, 1]`, the first blink fires with accumulated
timer in `(3, 6]`. -/
theorem firstFireTime_bounds (frames : List (ℚ × ℕ)) :
    ∀ timer T : ℚ, 0 ≤ timer → timer ≤ 5 →
      (∀ f ∈ frames, 0 ≤ f.1 ∧ f.1 ≤ 1) →
      firstFireTime timer frames = some T → 3 < T ∧ T ≤ 6 := by
  induction frames with
  | nil =>
      intro timer T _ _ _ h
      simp [firstFireTime] at h
  | cons f rest ih =>
      intro timer T h0 h5 hf h
      obtain ⟨hdt0, hdt1⟩ := hf f (List.mem_cons_self f rest)
      have hdraw0 : (0 : ℚ) ≤ ((f.2 % 3 : ℕ) : ℚ) := Nat.cast_nonneg _
      have hdraw2 : ((f.2 % 3 : ℕ) : ℚ) ≤ 2 := by
        have : f.2 % 3 ≤ 2 := Nat.le_of_lt_succ (Nat.mod_lt _ (by omega))
        exact_mod_cast this
      rw [firstFireTime] at h
      by_cases hc : 3 + ((f.2 % 3 : ℕ) : ℚ) < timer + f.1
      · rw [if_pos hc] at h
        have hT : T = timer + f.1 := by
          simpa using h.symm
        subst hT
        constructor
        · linarith
        · linarith
      · rw [if_neg hc] at h
        push_neg at hc
        exact ih (timer + f.1) T (by linarith) (by linarith)
          (fun g hg => hf g (List.mem_cons_of_mem f hg)) h

/-- C9 counterexample: a single frame with delta-time 7 seconds fires
the blink with 7 accumulated seconds on the timer — later than the
claimed 6-second upper bound (and this holds for every draw, since
`7 > 3 + 2`). -/
theorem c9_counterexample :
    firstFireTime 0 [(7, 0)] = some 7 ∧ ¬ ((7 : ℚ) ≤ 6) ∧
    (blinkCheck 0 7 0).2 = true ∧
    (∀ draw : ℕ, (blinkCheck 0 7 draw).2 = true) := by
  refine ⟨by norm_num [firstFireTime], by norm_num, by norm_num [blinkCheck], ?_⟩
  intro draw
  have hdraw2 : ((draw % 3 : ℕ) : ℚ) ≤ 2 := by
    have : draw % 3 ≤ 2 := Nat.le_of_lt_succ (Nat.mod_lt _ (by omega))
    exact_mod_cast this
  unfold blinkCheck
  rw [if_pos (by linarith)]

/-- C9 amended: starting from a zeroed timer with no external reset, and
with every frame delta-time in `[0, 1]` seconds, the first blink of a
run fires with accumulated timer strictly above 3 and at most 6 seconds,
for every sequence of random draws; moreover — with no delta-time
bound — a blink only ever fires with more than 3 accumulated seconds,
and firing resets the timer to zero.  (Without the per-frame delta-time
bound a single long frame can fire arbitrarily later than 6 seconds.) -/
theorem c9_blink_window (frames : List (ℚ × ℕ)) (T : ℚ)
    (hdt : ∀ f ∈ frames, 0 ≤ f.1 ∧ f.1 ≤ 1)
    (hT : firstFireTime 0 frames = some T) :
    (3 < T ∧ T ≤ 6) ∧
    (∀ timer dt draw, (blinkCheck timer dt draw).2 = true → 3 < timer + dt) ∧
    (∀ timer dt draw, (blinkCheck timer dt draw).2 = true →
      (blinkCheck timer dt draw).1 = 0) := by
  refine ⟨firstFireTime_bounds frames 0 T le_rfl (by norm_num) hdt hT, ?_, ?_⟩
  · intro timer dt draw hfire
    have hdraw0 : (0 : ℚ) ≤ ((draw % 3 : ℕ) : ℚ) := Nat.cast_nonneg _
    unfold blinkCheck at hfire
    by_cases hc : 3 + ((draw % 3 : ℕ) : ℚ) < timer + dt
    · linarith
    · rw [if_neg hc] at hfire
      simp at hfire
  · intro timer dt draw hfire
    unfold blinkCheck at hfire ⊢
    by_cases hc : 3 + ((draw % 3 : ℕ) : ℚ) < timer + dt
    · rw [if_pos hc]
    · rw [if_neg hc] at hfire
      simp at hfire

/-- C9 witness: four one-second frames with draw 0 fire the first blink
at 4 accumulated seconds, inside the amended `(3, 6]` window. -/
theorem c9_witness :
    firstFireTime 0 [((1:ℚ), (0:ℕ)), (1, 0), (1, 0), (1, 0)] = some 4 ∧
    (3 : ℚ) < 4 ∧ (4 : ℚ) ≤ 6 :=
  ⟨by norm_num [firstFireTime],
    (c9_blink_window [((1:ℚ), (0:ℕ)), (1, 0), (1, 0), (1, 0)] 4
      (by intro f hf; fin_cases hf <;> norm_num)
      (by norm_num [firstFireTime])).1⟩

/-! ### Physics theorems -/

/-- Helper: the write-back step does not touch the particle list. -/
theorem applyPhysicsToMesh_particles (r : MeshRegion) :
    (applyPhysicsToMesh r).particles = r.particles := rfl

/-- Helper: one relaxation pass is the fold of the per-constraint step
over the constraint list. -/
theorem satisfyConstraints_particles (r : MeshRegion) :
    (satisfyConstraints r).particles = r.constraints.foldl applyConstraint r.particles := rfl

/-- Helper: the Verlet step leaves a pinned particle untouched. -/
theorem integrateParticle_pinned (w : Vec3) (dt : ℝ) (p : PhysicsParticle)
    (hp : p.pinned = true) : integrateParticle w dt p = p := by
  unfold integrateParticle
  rw [if_pos hp]

/-- Helper: one per-constraint step leaves every pinned particle exactly
where it was (only unpinned endpoints are ever written). -/
theorem applyConstraint_pinned (ps : List PhysicsParticle) (c : ℤ × ℤ)
    (k : ℕ) (p : PhysicsParticle) (hk : ps[k]? = some p) (hp : p.pinned = true) :
    (applyConstraint ps c)[k]? = some p := by
  unfold applyConstraint
  split
  · exact hk
  · dsimp only
    split
    · have hklen : k < ps.length := by
        by_contra hcon
        rw [List.getElem?_eq_none (le_of_not_lt hcon)] at hk
        exact Option.noConfusion hk
      rw [List.getElem?_set]
      by_cases hjk : c.2.toNat = k
      · subst hjk
        have e2 : ps.getD c.2.toNat pdefault = p := by
          rw [List.getD_eq_getElem?_getD, hk]
          rfl
        rw [if_pos rfl, if_pos (by rw [List.length_set]; exact hklen)]
        rw [e2, hp]
        simp
      · rw [if_neg hjk, List.getElem?_set]
        by_cases hik : c.1.toNat = k
        · subst hik
          have e1 : ps.getD c.1.toNat pdefault = p := by
            rw [List.getD_eq_getElem?_getD, hk]
            rfl
          rw [if_pos rfl, if_pos hklen, e1, hp]
          simp
        · rw [if_neg hik]
          exact hk
    · exact hk

/-- Helper: a whole relaxation pass leaves every pinned particle exactly
where it was. -/
theorem foldl_applyConstraint_pinned (cs : List (ℤ × ℤ)) :
    ∀ (ps : List PhysicsParticle) (k : ℕ) (p : PhysicsParticle),
      ps[k]? = some p → p.pinned = true →
      (cs.foldl applyConstraint ps)[k]? = some p := by
  induction cs with
  | nil => intro ps k p hk _; simpa using hk
  | cons c rest ih =>
      intro ps k p hk hp
      rw [List.foldl_cons]
      exact ih (applyConstraint ps c) k p (applyConstraint_pinned ps c k p hk hp) hp

/-- C1: a pinned particle of the hair region is completely unchanged (in
particular its `position` and `oldPosition`) by one call to
`UpdateHairPhysics`, which performs the Verlet integration, the
constraint-relaxation pass, and the mesh write-back, for every wind
force, delta-time and constraint configuration. -/
theorem c1_pinned_unchanged (ch : Character) (dt : ℝ) (k : ℕ) (p : PhysicsParticle)
    (hk : ch.parts.hair.particles[k]? = some p) (hp : p.pinned = true) :
    (updateHairPhysics ch dt).parts.hair.particles[k]? = some p := by
  unfold updateHairPhysics
  split
  · exact hk
  · dsimp only
    rw [applyPhysicsToMesh_particles, satisfyConstraints_particles]
    apply foldl_applyConstraint_pinned _ _ _ _ _ hp
    rw [List.getElem?_map, hk, Option.map_some', integrateParticle_pinned _ _ _ hp]

/-- C1 witness: a concrete one-particle pinned hair region. -/
theorem c1_witness :
    hairChar.parts.hair.particles[0]? = some pinnedP ∧
    pinnedP.pinned = true ∧
    (updateHairPhysics hairChar 1).parts.hair.particles[0]? = some pinnedP :=
  ⟨rfl, rfl, c1_pinned_unchanged hairChar 1 0 pinnedP rfl rfl⟩

/-- C2: for an unpinned particle of the hair region, the integration
phase of `UpdateHairPhysics` follows exactly the Verlet rule:
`velocity = position - oldPosition`,
`acceleration = (0, -9.81, 0) + windForce`,
`newPosition = position + velocity * 0.99 + acceleration * dt²`, and the
pre-step position becomes the new `oldPosition`. -/
theorem c2_verlet_rule (ch : Character) (dt : ℝ) (k : ℕ) (p : PhysicsParticle)
    (hk : ch.parts.hair.particles[k]? = some p) (hp : p.pinned = false) :
    (ch.parts.hair.particles.map (integrateParticle ch.windForce dt))[k]?
      = some { position := p.position + (p.position - p.oldPosition).scale (99/100)
                   + ((⟨0, -981/100, 0⟩ : Vec3) + ch.windForce).scale (dt * dt)
               oldPosition := p.position
               acceleration := (⟨0, -981/100, 0⟩ : Vec3) + ch.windForce
               mass := p.mass
               pinned := p.pinned } := by
  rw [List.getElem?_map, hk, Option.map_some']
  unfold integrateParticle gravity
  rw [if_neg (by rw [hp]; exact Bool.false_ne_true)]

/-- C2 witness: the Verlet rule evaluated on a concrete unpinned
particle with delta-time 1/2. -/
theorem c2_witness :
    hairChar2.parts.hair.particles[0]? = some pdefault ∧
    pdefault.pinned = false ∧
    (hairChar2.parts.hair.particles.map
        (integrateParticle hairChar2.windForce (1/2)))[0]?
      = some { position := pdefault.position
                   + (pdefault.position - pdefault.oldPosition).scale (99/100)
                   + ((⟨0, -981/100, 0⟩ : Vec3) + hairChar2.windForce).scale ((1/2) * (1/2))
               oldPosition := pdefault.position
               acceleration := (⟨0, -981/100, 0⟩ : Vec3) + hairChar2.windForce
               mass := pdefault.mass
               pinned := pdefault.pinned } :=
  ⟨rfl, rfl, c2_verlet_rule hairChar2 (1/2) 0 pdefault rfl rfl⟩

/-- C7: during one relaxation pass, a constraint with an index out of
range for the particle count is skipped without modifying any particle,
a constraint whose endpoints coincide is skipped without dividing by
zero, and in both cases the fold continues with the remaining
constraints of the list. -/
theorem c7_degenerate_skipped (ps : List PhysicsParticle) (c : ℤ × ℤ)
    (rest : List (ℤ × ℤ)) :
    ((c.1 < 0 ∨ (ps.length : ℤ) ≤ c.1 ∨ c.2 < 0 ∨ (ps.length : ℤ) ≤ c.2) →
      applyConstraint ps c = ps) ∧
    (∀ p1 p2 : PhysicsParticle, ps[c.1.toNat]? = some p1 → ps[c.2.toNat]? = some p2 →
      p1.position = p2.position → applyConstraint ps c = ps) ∧
    (c :: rest).foldl applyConstraint ps = rest.foldl applyConstraint (applyConstraint ps c) := by
  refine ⟨?_, ?_, by rw [List.foldl_cons]⟩
  · intro h
    unfold applyConstraint
    rw [if_pos h]
  · intro p1 p2 h1 h2 hpos
    unfold applyConstraint
    split
    · rfl
    · dsimp only
      have e1 : ps.getD c.1.toNat pdefault = p1 := by
        rw [List.getD_eq_getElem?_getD, h1]
        rfl
      have e2 : ps.getD c.2.toNat pdefault = p2 := by
        rw [List.getD_eq_getElem?_getD, h2]
        rfl
      rw [e1, e2, hpos]
      have hzero : length3 (p2.position - p2.position) = 0 := by
        simp [length3, Vec3.sub_def]
      rw [if_neg (by rw [hzero]; exact lt_irrefl 0)]

/-- C7 witness: a concrete out-of-range constraint, a concrete
coincident-endpoint constraint, and the continuation of the fold. -/
theorem c7_witness :
    applyConstraint [pdefault] (5, 0) = [pdefault] ∧
    applyConstraint [pdefault, pdefault] (0, 1) = [pdefault, pdefault] ∧
    (((5, 0) : ℤ × ℤ) :: [((0, 1) : ℤ × ℤ)]).foldl applyConstraint [pdefault]
      = [((0, 1) : ℤ × ℤ)].foldl applyConstraint (applyConstraint [pdefault] (5, 0)) :=
  ⟨(c7_degenerate_skipped [pdefault] (5, 0) []).1 (by norm_num),
   (c7_degenerate_skipped [pdefault, pdefault] (0, 1) []).2.1 pdefault pdefault
     rfl rfl rfl,
   (c7_degenerate_skipped [pdefault] (5, 0) [((0, 1) : ℤ × ℤ)]).2.2⟩

/-- C8: the physics advance on a region with an empty particle list is a
silent no-op: `UpdateHairPhysics` with an empty hair particle list, and
`UpdateClothPhysics` with an empty skirt particle list, return with the
whole character state unchanged. -/
theorem c8_empty_noop (ch : Character) (dt : ℝ)
    (h1 : ch.parts.hair.particles = []) (h2 : ch.parts.skirt.particles = []) :
    updateHairPhysics ch dt = ch ∧ updateClothPhysics ch dt = ch := by
  constructor
  · unfold updateHairPhysics
    rw [if_pos (List.isEmpty_iff.mpr h1)]
  · unfold updateClothPhysics
    rw [if_pos (List.isEmpty_iff.mpr h2)]

/-- C8 witness: the no-op on a concrete character with empty regions. -/
theorem c8_witness :
    testCharacter.parts.hair.particles = [] ∧
    testCharacter.parts.skirt.particles = [] ∧
    updateHairPhysics testCharacter 1 = testCharacter ∧
    updateClothPhysics testCharacter 1 = testCharacter :=
  ⟨rfl, rfl, (c8_empty_noop testCharacter 1 rfl rfl).1,
   (c8_empty_noop testCharacter 1 rfl rfl).2⟩

/-- C10: when the skirt region has particles, `UpdateClothPhysics`
leaves the whole skirt region (particles and vertices alike) unchanged,
because it delegates to `UpdateHairPhysics`: the hair region is the only
part of the character it can mutate. -/
theorem c10_cloth_mutates_only_hair (ch : Character) (dt : ℝ)
    (h : ch.parts.skirt.particles ≠ []) :
    (updateClothPhysics ch dt).parts.skirt = ch.parts.skirt ∧
    updateClothPhysics ch dt
      = { ch with parts := { ch.parts with hair := (updateClothPhysics ch dt).parts.hair } } := by
  have hne : ¬ (ch.parts.skirt.particles.isEmpty = true) :=
    fun hh => h (List.isEmpty_iff.mp hh)
  unfold updateClothPhysics
  rw [if_neg hne]
  unfold updateHairPhysics
  by_cases he : ch.parts.hair.particles.isEmpty = true
  · rw [if_pos he]
    exact ⟨rfl, rfl⟩
  · rw [if_neg he]
    exact ⟨rfl, rfl⟩

/-- C10 witness: a concrete character whose skirt has one particle and
whose hair is uninitialised. -/
theorem c10_witness :
    skirtChar.parts.skirt.particles ≠ [] ∧
    (updateClothPhysics skirtChar 1).parts.skirt = skirtChar.parts.skirt :=
  ⟨List.cons_ne_nil pdefault [],
   (c10_cloth_mutates_only_hair skirtChar 1 (List.cons_ne_nil pdefault [])).1⟩

/-! ### Two-particle constraint relaxation (C6) -/

/-- Helper: the norm of a scaled vector. -/
theorem length3_scale (v : Vec3) (c : ℝ) : length3 (v.scale c) = |c| * length3 v := by
  unfold length3 Vec3.scale
  dsimp only
  rw [show v.x * c * (v.x * c) + v.y * c * (v.y * c) + v.z * c * (v.z * c)
        = c^2 * (v.x * v.x + v.y * v.y + v.z * v.z) by ring]
  rw [Real.sqrt_mul (sq_nonneg c), Real.sqrt_sq_eq_abs]

/-- Helper: the norm of a vector along the x axis. -/
theorem length3_x (a : ℝ) (h : 0 ≤ a) : length3 ⟨a, 0, 0⟩ = a := by
  unfold length3
  dsimp only
  rw [show a * a + 0 * 0 + 0 * 0 = a^2 by ring, Real.sqrt_sq h]

/-- Helper: the separation of the concrete anchored pair is `0.2`. -/
theorem length3_bob : length3 (bobP.position - pinnedP.position) = 1/5 := by
  have hvec : bobP.position - pinnedP.position = (⟨1/5, 0, 0⟩ : Vec3) := by
    apply Vec3.ext3 <;> simp [bobP, pinnedP, pdefault, Vec3.zero]
  rw [hvec, length3_x (1/5) (by norm_num)]

/-- Helper: the per-constraint step on a two-particle list with particle
0 pinned and particle 1 unpinned, at positive separation: the pinned
particle stays, the unpinned one moves by half the correction toward the
fixed rest length `0.1`. -/
theorem applyConstraint_two (p q : PhysicsParticle) (hp : p.pinned = true)
    (hq : q.pinned = false) (hd : 0 < length3 (q.position - p.position)) :
    applyConstraint [p, q] (0, 1)
      = [p, { q with position := q.position
          + (((q.position - p.position).scale
              ((1/10 - length3 (q.position - p.position))
                / length3 (q.position - p.position))).scale (1/2)) }] := by
  unfold applyConstraint
  rw [if_neg (by push_cast; norm_num)]
  dsimp only
  simp only [Int.toNat_zero, Int.toNat_one, List.getD_cons_zero, List.getD_cons_succ]
  rw [if_pos hd]
  simp only [hp, hq, if_true, Bool.false_eq_true, if_false]
  rfl

/-- C6 counterexample: with the pinned anchor at the origin and the free
particle at distance `0.2` — exactly a hypothetical rest length
`L = 0.2` — one relaxation pass moves the free particle to distance
`0.15`, strictly away from `L`: the pass converges to the hard-coded
rest length `0.1`, not to the constraint's nominal `L`. -/
theorem c6_counterexample :
    length3 (bobP.position - pinnedP.position) = 1/5 ∧
    length3 (((satisfyConstraints twoRegion).particles.getD 1 pdefault).position
        - ((satisfyConstraints twoRegion).particles.getD 0 pdefault).position) = 3/20 ∧
    ¬ (|(3:ℝ)/20 - 1/5| ≤ |(1:ℝ)/5 - 1/5|) := by
  refine ⟨length3_bob, ?_, ?_⟩
  · have hdpos : 0 < length3 (bobP.position - pinnedP.position) := by
      rw [length3_bob]; norm_num
    have hfold : (satisfyConstraints twoRegion).particles
        = applyConstraint [pinnedP, bobP] (0, 1) := by
      rw [satisfyConstraints_particles]
      rfl
    rw [hfold, applyConstraint_two pinnedP bobP rfl rfl hdpos]
    simp only [List.getD_cons_zero, List.getD_cons_succ]
    rw [length3_bob]
    have hvec : (bobP.position + (((bobP.position - pinnedP.position).scale
        ((1/10 - 1/5) / (1/5))).scale (1/2))) - pinnedP.position
        = (⟨3/20, 0, 0⟩ : Vec3) := by
      apply Vec3.ext3 <;> simp [bobP, pinnedP, pdefault, Vec3.zero, Vec3.scale]
      norm_num
    rw [hvec, length3_x (3/20) (by norm_num)]
  · rw [show (3:ℝ)/20 - 1/5 = -(1/20) by norm_num,
       show (1:ℝ)/5 - 1/5 = 0 by norm_num, abs_neg, abs_zero,
       abs_of_pos (by norm_num : (0:ℝ) < 1/20)]
    norm_num

/-- C6 amended: the code relaxes toward the hard-coded rest length `0.1`
(constraints carry no rest length of their own).  For a two-particle
region with particle 0 pinned and particle 1 unpinned at separation
`d > 0`, one `SatisfyConstraints` pass leaves the pinned particle fixed
and moves the unpinned one to separation `(d + 0.1) / 2`: the gap to
`0.1` halves each pass, monotonically and without overshooting past
`0.1`. -/
theorem c6_fixed_rest_convergence (region : MeshRegion) (p q : PhysicsParticle)
    (d : ℝ) (hp : p.pinned = true) (hq : q.pinned = false)
    (hparts : region.particles = [p, q]) (hcs : region.constraints = [(0, 1)])
    (hd : d = length3 (q.position - p.position)) (hpos : 0 < d) :
    (satisfyConstraints region).particles.getD 0 pdefault = p ∧
    length3 (((satisfyConstraints region).particles.getD 1 pdefault).position
        - p.position) = (d + 1/10) / 2 ∧
    |(d + 1/10) / 2 - 1/10| = |d - 1/10| / 2 ∧
    min d (1/10) ≤ (d + 1/10) / 2 ∧
    (d + 1/10) / 2 ≤ max d (1/10) := by
  have hdpos : 0 < length3 (q.position - p.position) := hd ▸ hpos
  have hfold : (satisfyConstraints region).particles = applyConstraint [p, q] (0, 1) := by
    rw [satisfyConstraints_particles, hcs, hparts, List.foldl_cons, List.foldl_nil]
  rw [hfold, applyConstraint_two p q hp hq hdpos]
  have hdne : d ≠ 0 := ne_of_gt hpos
  refine ⟨rfl, ?_, ?_, ?_, ?_⟩
  · simp only [List.getD_cons_zero, List.getD_cons_succ]
    have hvec : (q.position + (((q.position - p.position).scale
        ((1/10 - length3 (q.position - p.position))
          / length3 (q.position - p.position))).scale (1/2))) - p.position
        = (q.position - p.position).scale
            (1 + ((1/10 - length3 (q.position - p.position))
              / length3 (q.position - p.position)) * (1/2)) := by
      apply Vec3.ext3 <;> simp [Vec3.scale] <;> ring
    rw [hvec, length3_scale, ← hd]
    have hcoef : 1 + (1/10 - d) / d * (1/2) = (d + 1/10) / (2 * d) := by
      field_simp
      ring
    have hcpos : 0 < (d + 1/10) / (2 * d) := div_pos (by linarith) (by linarith)
    rw [hcoef, abs_of_pos hcpos]
    field_simp
    ring
  · rw [show (d + 1/10) / 2 - 1/10 = (d - 1/10) / 2 by ring, abs_div]
    norm_num
  · rcases le_total d (1/10) with h | h
    · rw [min_eq_left h]; linarith
    · rw [min_eq_right h]; linarith
  · rcases le_total d (1/10) with h | h
    · rw [max_eq_right h]; linarith
    · rw [max_eq_left h]; linarith

/-- C6 witness: the amended statement at the concrete anchored pair with
separation `d = 1/5`: one pass yields separation `(1/5 + 1/10)/2`. -/
theorem c6_witness :
    (0 : ℝ) < 1/5 ∧
    (1/5 : ℝ) = length3 (bobP.position - pinnedP.position) ∧
    length3 (((satisfyConstraints twoRegion).particles.getD 1 pdefault).position
        - pinnedP.position) = ((1/5 : ℝ) + 1/10) / 2 :=
  ⟨by norm_num, length3_bob.symm,
    (c6_fixed_rest_convergence twoRegion pinnedP bobP (1/5) rfl rfl rfl rfl
      length3_bob.symm (by norm_num)).2.1⟩

end AnimeRig
